import Mathlib

/-!
Shallow embedding of the derby-predictor dashboard's core logic
(src/app.py and src/demo-app.py) for checking the repository's
natural-language specification.

Tables model pandas DataFrames: a global ordered column list plus rows of
values.  Values cover the kinds of cell the program produces or reads:
integers, exact decimals (pandas floats appear here only as inert data, so
they are modelled by exact rationals, a decimal d.e written mkRat de 10),
strings, and NaN/missing (`vNone`).
-/

/-- A cell value of a table. `vNone` models pandas NaN / missing. -/
inductive Value where
  | vInt : Int → Value
  | vRat : Rat → Value
  | vStr : String → Value
  | vNone : Value
deriving DecidableEq, Repr

/-- A table: ordered column names plus rows, each row listing the values in
column order.  Models a pandas DataFrame. -/
@[ext]
structure Table where
  cols : List String
  rows : List (List Value)
deriving DecidableEq, Repr

/-- The empty DataFrame `pd.DataFrame()`: no columns, no rows. -/
def Table.emptyDF : Table := { cols := [], rows := [] }

/-- pandas `df.empty`: true when either axis has length zero. -/
def Table.pdEmpty (t : Table) : Bool := t.rows.isEmpty || t.cols.isEmpty

/-- The spec's Table invariant (section 3): a Table is either the empty
sequence or fully populated (every row supplies a value for every column,
and there is at least one column). -/
def Table.WF (t : Table) : Prop :=
  t.rows = [] ∨ (t.cols ≠ [] ∧ ∀ r ∈ t.rows, r.length = t.cols.length)

instance (t : Table) : Decidable t.WF := by
  unfold Table.WF; infer_instance

/-- Position of a column name in a column list (pandas column lookup). -/
def idxOfCol : List String → String → Option Nat
  | [], _ => none
  | c :: cs, name => if c = name then some 0 else (idxOfCol cs name).map (· + 1)

/-- The value a row holds in a named column, given the table's columns. -/
def rowGet (cols : List String) (r : List Value) (name : String) : Option Value :=
  (idxOfCol cols name).bind (fun i => r.get? i)

/-- The full column of values under a name, `df[name]`, when present. -/
def Table.col? (t : Table) (name : String) : Option (List Value) :=
  (idxOfCol t.cols name).map (fun i => t.rows.map (fun r => r.getD i Value.vNone))

/-- `df[name] = vals`: append a fresh column on the right (pandas inserts
new columns at the end).  Used by `make_demo_df`. -/
def Table.addCol (t : Table) (name : String) (vals : List Value) : Table :=
  { cols := t.cols ++ [name], rows := t.rows.zipWith (fun r v => r ++ [v]) vals }

/-- `df.copy()`: in the pure model a structural copy is the same table;
aliasing questions are handled by the heap model further down. -/
def Table.copy (t : Table) : Table := { cols := t.cols, rows := t.rows }

/-- The filesystem and CSV-parsing environment both entry points run in:
`pathExists` models `os.path.exists`, `readCsv` models `pd.read_csv`,
which either yields a table or raises (an `Except.error` carrying the
exception message). -/
structure FS where
  pathExists : String → Bool
  readCsv : String → Except String Table

namespace App

/-- src/app.py `load_csv` (lines 10-15): if the path exists, call
`pd.read_csv` directly — there is no try/except, so a parse exception
propagates (hence the `Except` result); otherwise warn and return the
empty DataFrame. -/
def load_csv (fs : FS) (path : String) : Except String Table :=
  if fs.pathExists path then fs.readCsv path
  else Except.ok Table.emptyDF

end App

namespace Demo

/-- src/demo-app.py `load_csv` (lines 35-43): the whole body is wrapped in
`try: ... except Exception: pass`, so every failure falls through to
returning the empty DataFrame; the function itself never raises. -/
def load_csv (fs : FS) (path : String) : Table :=
  if fs.pathExists path then
    match fs.readCsv path with
    | Except.ok df => df
    | Except.error _ => Table.emptyDF
  else Table.emptyDF

end Demo

/-- src/demo-app.py `make_demo_df` (lines 45-65): the fixed five-horse
synthetic table, with kind-specific extra columns for "pca" and
"cluster". Rows are listed in pandas column order: Horse, Year, PP,
Trainer, Jockey, CompositeIndex, SpeedFigure, FinalFraction, Note. -/
def make_demo_df (kind : String) : Table :=
  let base : Table := {
    cols := ["Horse", "Year", "PP", "Trainer", "Jockey", "CompositeIndex",
             "SpeedFigure", "FinalFraction", "Note"],
    rows := [
      [Value.vStr "Thunder Lane", Value.vInt 2025, Value.vInt 3, Value.vStr "Redacted",
       Value.vStr "Redacted", Value.vRat (mkRat 923 10), Value.vInt 100, Value.vRat (mkRat 376 10),
       Value.vStr (kind ++ " (demo)")],
      [Value.vStr "Blue Ribbon", Value.vInt 2025, Value.vInt 7, Value.vStr "Redacted",
       Value.vStr "Redacted", Value.vRat (mkRat 901 10), Value.vInt 101, Value.vRat (mkRat 379 10),
       Value.vStr (kind ++ " (demo)")],
      [Value.vStr "Crimson Tide", Value.vInt 2025, Value.vInt 11, Value.vStr "Redacted",
       Value.vStr "Redacted", Value.vRat (mkRat 887 10), Value.vInt 98, Value.vRat (mkRat 381 10),
       Value.vStr (kind ++ " (demo)")],
      [Value.vStr "Midnight Ace", Value.vInt 2025, Value.vInt 5, Value.vStr "Redacted",
       Value.vStr "Redacted", Value.vRat (mkRat 879 10), Value.vInt 99, Value.vRat (mkRat 378 10),
       Value.vStr (kind ++ " (demo)")],
      [Value.vStr "Golden Harbor", Value.vInt 2025, Value.vInt 9, Value.vStr "Redacted",
       Value.vStr "Redacted", Value.vRat (mkRat 864 10), Value.vInt 97, Value.vRat (mkRat 382 10),
       Value.vStr (kind ++ " (demo)")]] }
  let base := if kind = "pca" then
      (base.addCol "PC1" [Value.vRat (mkRat 12 10), Value.vRat (mkRat 9 10), Value.vRat (mkRat (-3) 10),
                          Value.vRat (mkRat 4 10), Value.vRat (mkRat (-7) 10)]).addCol "PC2"
        [Value.vRat (mkRat (-1) 10), Value.vRat (mkRat 5 10), Value.vRat (mkRat 10 10), Value.vRat (mkRat (-2) 10), Value.vRat (mkRat 3 10)]
    else base
  let base := if kind = "cluster" then
      base.addCol "Cluster" [Value.vStr "A", Value.vStr "A", Value.vStr "B",
                             Value.vStr "B", Value.vStr "C"]
    else base
  base

/-- src/demo-app.py `ensure_demo_if_empty` (lines 67-68):
`df if not df.empty else make_demo_df(kind)`. -/
def ensure_demo_if_empty (df : Table) (kind : String) : Table :=
  if !df.pdEmpty then df else make_demo_df kind

/-!
Horse-name matching.  The code runs
`out["Horse"].str.contains(query, case=False, na=False)`, whose pandas
semantics is a case-insensitive *regular-expression search* of the query
inside each string cell (regex=True is the pandas default), with missing
or non-string cells counting as no-match (na=False, object dtype).

The matcher below implements Python `re.search` for the fragment of
patterns actually reasoned about here: literal characters plus the `.`
wildcard, which matches any character except a newline.  Case-insensitive
search of p in s is modelled as searching the lowercased p in the
lowercased s, where lowercasing (`strLower`) maps `Char.toLower` over the
characters (the behaviour of Python lowercasing on the data in play).
Patterns using other regex metacharacters are outside this model and no
theorem below quantifies over them.
-/

/-- Charwise lowercasing of a string. -/
def strLower (s : String) : String :=
  String.mk (s.data.map Char.toLower)

/-- One token of a compiled pattern: a literal character or the `.`
wildcard. -/
inductive RTok where
  | lit : Char → RTok
  | dot : RTok
deriving DecidableEq, Repr

/-- Compile a pattern string: `.` becomes the wildcard, everything else a
literal. -/
def compilePat (pat : String) : List RTok :=
  pat.data.map (fun c => if c = '.' then RTok.dot else RTok.lit c)

/-- Match a compiled pattern against the front of a character list. -/
def matchHere : List RTok → List Char → Bool
  | [], _ => true
  | _ :: _, [] => false
  | RTok.lit c :: ps, x :: xs => (x = c : Bool) && matchHere ps xs
  | RTok.dot :: ps, x :: xs => (x ≠ '\n' : Bool) && matchHere ps xs

/-- Python `re.search`: the pattern matches at some position of the
string. -/
def reSearch (pat : String) (s : String) : Bool :=
  (List.range (s.data.length + 1)).any (fun i => matchHere (compilePat pat) (s.data.drop i))

/-- The Python `re` metacharacters.  A query avoiding all of them is
matched purely literally, i.e. as a substring. -/
def regexMeta : List Char :=
  ['.', '^', '$', '*', '+', '?', '\x7b', '\x7d', '[', ']', '\\', '|', '(', ')']

/-- Pandas cell-level `==` against a Python int: numeric equality for
numeric cells, False for strings and NaN. -/
def valueEqInt (v : Value) (y : Int) : Bool :=
  match v with
  | Value.vInt n => n = y
  | Value.vRat q => q = (y : Rat)
  | Value.vStr _ => false
  | Value.vNone => false

/-- Row predicate of `out[out["Year"] == year]`. -/
def yearRowKeep (cols : List String) (y : Int) (r : List Value) : Bool :=
  match rowGet cols r "Year" with
  | some v => valueEqInt v y
  | none => false

/-- Row predicate of
`out[out["Horse"].str.contains(query, case=False, na=False)]`:
only string cells can match; NaN and non-string cells never do. -/
def horseRowKeep (cols : List String) (q : String) (r : List Value) : Bool :=
  match rowGet cols r "Horse" with
  | some (Value.vStr s) => reSearch (strLower q) (strLower s)
  | _ => false

/-- `out = out[out["Year"] == year]`: boolean-mask selection, preserving
row order and the column set. -/
def yearFilterRows (t : Table) (y : Int) : Table :=
  { t with rows := t.rows.filter (yearRowKeep t.cols y) }

/-- `out = out[out["Horse"].str.contains(query, case=False, na=False)]`. -/
def horseFilterRows (t : Table) (q : String) : Table :=
  { t with rows := t.rows.filter (horseRowKeep t.cols q) }

/-- First conditional of `apply_filters`:
`if year and "Year" in out.columns: ...`.  Python truthiness makes
`year = None` and `year = 0` both skip the filter. -/
def yearStage (t : Table) (year : Option Int) : Table :=
  match year with
  | some y => if y ≠ 0 ∧ "Year" ∈ t.cols then yearFilterRows t y else t
  | none => t

/-- Second conditional of `apply_filters`:
`if query and "Horse" in out.columns: ...`.  Python truthiness makes
`query = None` and `query = ""` both skip the filter. -/
def horseStage (t : Table) (query : Option String) : Table :=
  match query with
  | some q => if q ≠ "" ∧ "Horse" ∈ t.cols then horseFilterRows t q else t
  | none => t

/-- src/demo-app.py `apply_filters` (lines 70-76): copy the input, run the
year conditional, then the query conditional. -/
def apply_filters (df : Table) (year : Option Int) (query : Option String) : Table :=
  horseStage (yearStage df.copy year) query

/-- src/demo-app.py lines 99-108, the access gate.  `accessKey` models
`ACCESS_KEY` (None when neither the secrets store nor the environment
variable is set); `key` the sidebar text input; `checkboxValue` the "Demo
mode" checkbox the user sees when no key is configured (its widget
default is `value=True`).  The result is the `demo_mode` boolean the code
computes: `false` means access granted.  `if ACCESS_KEY:` is a Python
truthiness test, so an empty-string key behaves like no key at all. -/
def demo_mode (accessKey : Option String) (key : String) (checkboxValue : Bool) : Bool :=
  match accessKey with
  | some s => if s ≠ "" then decide (key ≠ s) else checkboxValue
  | none => checkboxValue

/-- The widget default of the "Demo mode" checkbox (`value=True`). -/
def CHECKBOX_DEFAULT : Bool := true

/-- One entry of `DATA_VIEWS` (src/demo-app.py lines 20-26). -/
structure ViewDescr where
  key : String
  title : String
  emoji : String
  file : String
deriving DecidableEq, Repr

/-- src/demo-app.py `DATA_VIEWS` (lines 20-26). -/
def DATA_VIEWS : List ViewDescr :=
  [{ key := "quick", title := "Quick Composite", emoji := "🔹", file := "data/quick_predictions.csv" },
   { key := "rank", title := "Model Rankings", emoji := "🔸", file := "data/model_rankings.csv" },
   { key := "pca", title := "PCA Insights", emoji := "♠️", file := "data/pca_summary.csv" },
   { key := "overlay", title := "Value Picks", emoji := "💰", file := "data/value_overlay.csv" },
   { key := "cluster", title := "Cluster Analysis", emoji := "🔄", file := "data/cluster_insights.csv" }]

namespace Demo

/-- The kind string the tabs loop passes to `ensure_demo_if_empty`
(src/demo-app.py line 129):
`view["key"] if view["key"] in {"pca", "cluster"} else view["title"]`. -/
def viewKind (v : ViewDescr) : String :=
  if v.key = "pca" ∨ v.key = "cluster" then v.key else v.title

/-- The resolution part of the tabs loop (src/demo-app.py lines 128-129):
load the view's file, then substitute demo data if the result is empty. -/
def resolveView (fs : FS) (v : ViewDescr) : Table :=
  ensure_demo_if_empty (load_csv fs v.file) (viewKind v)

end Demo

/-!
Heap model for the frame property of `apply_filters`.  Python variables
hold references to DataFrame objects on a heap; `df.copy()` allocates a
fresh object, and boolean-mask selection `out[mask]` also allocates a
fresh object rather than mutating `out` (no pandas operation in
`apply_filters` is in-place).  A heap is a list of tables and a reference
is an index into it; allocation appends.
-/

/-- A heap of DataFrame objects. -/
abbrev Heap := List Table

/-- Allocate a fresh object, returning the new heap and the reference. -/
def halloc (h : Heap) (t : Table) : Heap × Nat :=
  (h ++ [t], h.length)

/-- Dereference (out-of-range reads yield the empty frame; they never
occur in the theorems below). -/
def hget (h : Heap) (i : Nat) : Table :=
  (h.get? i).getD Table.emptyDF

/-- The year conditional of `apply_filters` on the heap: when the filter
fires, `out[out["Year"] == year]` allocates a fresh frame and rebinds
`out`; otherwise nothing happens. -/
def yearStep (h : Heap) (out : Nat) (year : Option Int) : Heap × Nat :=
  match year with
  | some y => if y ≠ 0 ∧ "Year" ∈ (hget h out).cols
              then halloc h (yearFilterRows (hget h out) y)
              else (h, out)
  | none => (h, out)

/-- The query conditional of `apply_filters` on the heap. -/
def horseStep (h : Heap) (out : Nat) (query : Option String) : Heap × Nat :=
  match query with
  | some q => if q ≠ "" ∧ "Horse" ∈ (hget h out).cols
              then halloc h (horseFilterRows (hget h out) q)
              else (h, out)
  | none => (h, out)

/-- src/demo-app.py `apply_filters` run against the heap: `out = df.copy()`
allocates, then the two conditionals run on `out`.  Returns the final heap
and the reference returned to the caller. -/
def apply_filters_heap (h : Heap) (df : Nat) (year : Option Int) (query : Option String) :
    Heap × Nat :=
  let a1 := halloc h (Table.copy (hget h df))
  let a2 := yearStep a1.1 a1.2 year
  horseStep a2.1 a2.2 query

/-!
### Structural lemmas about the embedded operations
-/

theorem Table.copy_eq (t : Table) : t.copy = t := rfl


theorem yearStage_cols (t : Table) (year : Option Int) : (yearStage t year).cols = t.cols := by
  cases year with
  | none => rfl
  | some y =>
      by_cases hy : y ≠ 0 ∧ "Year" ∈ t.cols <;> simp [yearStage, hy, yearFilterRows]

theorem horseStage_cols (t : Table) (query : Option String) :
    (horseStage t query).cols = t.cols := by
  cases query with
  | none => rfl
  | some q =>
      by_cases hq : q ≠ "" ∧ "Horse" ∈ t.cols <;> simp [horseStage, hq, horseFilterRows]

theorem apply_filters_cols (t : Table) (year : Option Int) (query : Option String) :
    (apply_filters t year query).cols = t.cols := by
  unfold apply_filters
  rw [horseStage_cols, yearStage_cols, Table.copy_eq]

theorem yearStage_rows_sublist (t : Table) (year : Option Int) :
    List.Sublist (yearStage t year).rows t.rows := by
  cases year with
  | none => exact List.Sublist.refl _
  | some y =>
      by_cases hy : y ≠ 0 ∧ "Year" ∈ t.cols <;> simp [yearStage, hy, yearFilterRows]

theorem horseStage_rows_sublist (t : Table) (query : Option String) :
    List.Sublist (horseStage t query).rows t.rows := by
  cases query with
  | none => exact List.Sublist.refl _
  | some q =>
      by_cases hq : q ≠ "" ∧ "Horse" ∈ t.cols <;> simp [horseStage, hq, horseFilterRows]

theorem apply_filters_rows_sublist (t : Table) (year : Option Int) (query : Option String) :
    List.Sublist (apply_filters t year query).rows t.rows :=
  List.Sublist.trans (horseStage_rows_sublist _ _) (yearStage_rows_sublist _ _)

theorem stages_comm (t : Table) (year : Option Int) (query : Option String) :
    horseStage (yearStage t year) query = yearStage (horseStage t query) year := by
  cases year with
  | none => rfl
  | some y =>
      cases query with
      | none => rfl
      | some q =>
          simp only [yearStage, horseStage, yearFilterRows, horseFilterRows]
          by_cases hy : y ≠ 0 ∧ "Year" ∈ t.cols <;>
            by_cases hq : q ≠ "" ∧ "Horse" ∈ t.cols <;>
              simp [hy, hq]
          exact List.filter_congr fun a _ => Bool.and_comm _ _

theorem yearRowKeep_of_mem (t : Table) (y : Int) (q : Option String) (r : List Value)
    (hy : y ≠ 0) (hc : "Year" ∈ t.cols)
    (hr : r ∈ (apply_filters t (some y) q).rows) :
    yearRowKeep t.cols y r = true ∧ r ∈ t.rows := by
  have h1 : r ∈ (yearStage t.copy (some y)).rows :=
    List.Sublist.mem hr (horseStage_rows_sublist _ _)
  rw [Table.copy_eq] at h1
  simp only [yearStage] at h1
  rw [if_pos ⟨hy, hc⟩] at h1
  unfold yearFilterRows at h1
  exact ⟨(List.mem_filter.1 h1).2, (List.mem_filter.1 h1).1⟩

theorem horseRowKeep_of_mem (t : Table) (y : Option Int) (q : String) (r : List Value)
    (hq : q ≠ "") (hc : "Horse" ∈ t.cols)
    (hr : r ∈ (apply_filters t y (some q)).rows) :
    horseRowKeep t.cols q r = true := by
  unfold apply_filters at hr
  have hcols : (yearStage t.copy y).cols = t.cols := by
    rw [yearStage_cols, Table.copy_eq]
  simp only [horseStage] at hr
  rw [hcols] at hr
  rw [if_pos ⟨hq, hc⟩] at hr
  unfold horseFilterRows at hr
  rw [hcols] at hr
  exact (List.mem_filter.1 hr).2

theorem make_demo_df_rows_length (kind : String) : (make_demo_df kind).rows.length = 5 := by
  by_cases hp : kind = "pca" <;> by_cases hc : kind = "cluster" <;>
    simp [make_demo_df, Table.addCol, hp, hc]

theorem make_demo_df_cols_ne_nil (kind : String) : (make_demo_df kind).cols ≠ [] := by
  by_cases hp : kind = "pca" <;> by_cases hc : kind = "cluster" <;>
    simp [make_demo_df, Table.addCol, hp, hc]

theorem make_demo_df_pdEmpty (kind : String) : (make_demo_df kind).pdEmpty = false := by
  unfold Table.pdEmpty
  have h5 := make_demo_df_rows_length kind
  have hc := make_demo_df_cols_ne_nil kind
  rw [Bool.or_eq_false_iff]
  constructor
  · rw [List.isEmpty_eq_false_iff_exists_mem]
    rcases hrr : (make_demo_df kind).rows with _ | ⟨r, rs⟩
    · rw [hrr] at h5
      simp at h5
    · exact ⟨r, List.mem_cons_self _ _⟩
  · rw [List.isEmpty_eq_false_iff_exists_mem]
    rcases hcc : (make_demo_df kind).cols with _ | ⟨c, cs⟩
    · exact absurd hcc hc
    · exact ⟨c, List.mem_cons_self _ _⟩

theorem ensure_demo_if_empty_idem (t : Table) (kind : String) :
    ensure_demo_if_empty (ensure_demo_if_empty t kind) kind = ensure_demo_if_empty t kind := by
  unfold ensure_demo_if_empty
  by_cases h : t.pdEmpty = false
  · rw [h]
    simp [h]
  · rw [Bool.not_eq_false] at h
    rw [h]
    simp [make_demo_df_pdEmpty]

theorem matchHere_lit_iff : ∀ (p xs : List Char), (∀ c ∈ p, c ≠ '.') →
    (matchHere (p.map (fun c => if c = '.' then RTok.dot else RTok.lit c)) xs = true ↔
      p <+: xs)
  | [], xs, _ => by simp [matchHere]
  | c :: p, [], hp => by
      have hc : c ≠ '.' := hp c (List.mem_cons_self _ _)
      simp [matchHere, if_neg hc]
  | c :: p, x :: xs, hp => by
      have hc : c ≠ '.' := hp c (List.mem_cons_self _ _)
      have hp' : ∀ d ∈ p, d ≠ '.' := fun d hd => hp d (List.mem_cons_of_mem _ hd)
      simp only [List.map_cons, if_neg hc, matchHere, Bool.and_eq_true, decide_eq_true_eq,
        List.cons_prefix_cons]
      rw [matchHere_lit_iff p xs hp']
      constructor
      · rintro ⟨h1, h2⟩
        exact ⟨h1.symm, h2⟩
      · rintro ⟨h1, h2⟩
        exact ⟨h1.symm, h2⟩

theorem infix_iff_drop (l m : List Char) :
    l <:+: m ↔ ∃ i, i ≤ m.length ∧ l <+: m.drop i := by
  constructor
  · rintro ⟨s, t, rfl⟩
    refine ⟨s.length, ?_, ?_⟩
    · simp
    · rw [List.append_assoc, List.drop_left]
      exact ⟨t, rfl⟩
  · rintro ⟨i, hi, t, ht⟩
    exact ⟨m.take i, t, by rw [List.append_assoc, ht, List.take_append_drop]⟩

theorem reSearch_lit_iff (p s : String) (hp : ∀ c ∈ p.data, c ≠ '.') :
    reSearch p s = true ↔ p.data <:+: s.data := by
  unfold reSearch compilePat
  rw [List.any_eq_true, infix_iff_drop]
  constructor
  · rintro ⟨i, hmem, hm⟩
    rw [List.mem_range] at hmem
    exact ⟨i, by omega, (matchHere_lit_iff p.data _ hp).1 hm⟩
  · rintro ⟨i, hi, hpre⟩
    exact ⟨i, List.mem_range.2 (by omega), (matchHere_lit_iff p.data _ hp).2 hpre⟩

theorem hget_halloc_new (h : Heap) (t : Table) : hget (halloc h t).1 (halloc h t).2 = t := by
  simp [hget, halloc, List.get?_concat_length]

theorem get?_halloc_lt (h : Heap) (t : Table) (i : Nat) (hi : i < h.length) :
    (halloc h t).1.get? i = h.get? i := by
  simp only [halloc]
  rw [List.get?_append hi]

theorem halloc_length (h : Heap) (t : Table) : (halloc h t).1.length = h.length + 1 := by
  simp [halloc]

theorem yearStep_get? (h : Heap) (out : Nat) (year : Option Int) (i : Nat) (hi : i < h.length) :
    (yearStep h out year).1.get? i = h.get? i := by
  cases year with
  | none => rfl
  | some y =>
      by_cases hcnd : y ≠ 0 ∧ "Year" ∈ (hget h out).cols <;> simp only [yearStep]
      · rw [if_pos hcnd]
        exact get?_halloc_lt _ _ _ hi
      · rw [if_neg hcnd]

theorem yearStep_length (h : Heap) (out : Nat) (year : Option Int) :
    h.length ≤ (yearStep h out year).1.length := by
  cases year with
  | none => exact Nat.le_refl _
  | some y =>
      by_cases hcnd : y ≠ 0 ∧ "Year" ∈ (hget h out).cols <;> simp only [yearStep]
      · rw [if_pos hcnd, halloc_length]
        omega
      · rw [if_neg hcnd]

theorem yearStep_hget (h : Heap) (out : Nat) (year : Option Int) :
    hget (yearStep h out year).1 (yearStep h out year).2 = yearStage (hget h out) year := by
  cases year with
  | none => rfl
  | some y =>
      by_cases hcnd : y ≠ 0 ∧ "Year" ∈ (hget h out).cols <;>
        simp only [yearStep, yearStage]
      · rw [if_pos hcnd, if_pos hcnd, hget_halloc_new]
      · rw [if_neg hcnd, if_neg hcnd]

theorem horseStep_get? (h : Heap) (out : Nat) (query : Option String) (i : Nat)
    (hi : i < h.length) :
    (horseStep h out query).1.get? i = h.get? i := by
  cases query with
  | none => rfl
  | some q =>
      by_cases hcnd : q ≠ "" ∧ "Horse" ∈ (hget h out).cols <;> simp only [horseStep]
      · rw [if_pos hcnd]
        exact get?_halloc_lt _ _ _ hi
      · rw [if_neg hcnd]

theorem horseStep_hget (h : Heap) (out : Nat) (query : Option String) :
    hget (horseStep h out query).1 (horseStep h out query).2 =
      horseStage (hget h out) query := by
  cases query with
  | none => rfl
  | some q =>
      by_cases hcnd : q ≠ "" ∧ "Horse" ∈ (hget h out).cols <;>
        simp only [horseStep, horseStage]
      · rw [if_pos hcnd, if_pos hcnd, hget_halloc_new]
      · rw [if_neg hcnd, if_neg hcnd]

/-!
### Claim theorems
-/

/-- C1 counterexample: the claim asserts that for both entry points a
parsing failure yields an empty Table and never propagates.  In a
filesystem where the file exists but `pd.read_csv` raises, app.py's
`load_csv` (which has no try/except) re-raises the exception instead of
returning the empty table. -/
theorem C1_counterexample :
    App.load_csv ⟨fun _ => true, fun _ => Except.error "parse failure"⟩
        "derby_2025_quick_predictions.csv" = Except.error "parse failure" ∧
    App.load_csv ⟨fun _ => true, fun _ => Except.error "parse failure"⟩
        "derby_2025_quick_predictions.csv" ≠ Except.ok Table.emptyDF := by
  constructor
  · rfl
  · intro h
    simp [App.load_csv] at h

/-- C1 (amended): demo-app.py's `load_csv` returns the empty Table both
when the path does not exist and when parsing fails, and by its type never
propagates a failure; app.py's `load_csv` returns the empty Table when the
path does not exist, but when the path exists and parsing fails it
propagates the failure to its caller. -/
theorem C1_load_csv_amended (fs : FS) (path : String) :
    (fs.pathExists path = false →
      Demo.load_csv fs path = Table.emptyDF ∧
        App.load_csv fs path = Except.ok Table.emptyDF) ∧
    (∀ e, fs.readCsv path = Except.error e →
      Demo.load_csv fs path = Table.emptyDF ∧
        (fs.pathExists path = true → App.load_csv fs path = Except.error e)) := by
  constructor
  · intro hne
    unfold Demo.load_csv App.load_csv
    rw [hne]
    simp
  · intro e he
    constructor
    · unfold Demo.load_csv
      by_cases hex : fs.pathExists path = true
      · rw [hex, he]
        simp
      · rw [Bool.not_eq_true] at hex
        rw [hex]
        simp
    · intro hex
      unfold App.load_csv
      rw [hex, he]
      simp

theorem C1_load_csv_amended_witness :
    Demo.load_csv ⟨fun _ => false, fun _ => Except.error "boom"⟩
        "data/quick_predictions.csv" = Table.emptyDF ∧
    App.load_csv ⟨fun _ => false, fun _ => Except.error "boom"⟩
        "data/quick_predictions.csv" = Except.ok Table.emptyDF ∧
    Demo.load_csv ⟨fun _ => true, fun _ => Except.error "boom"⟩
        "data/quick_predictions.csv" = Table.emptyDF ∧
    App.load_csv ⟨fun _ => true, fun _ => Except.error "boom"⟩
        "data/quick_predictions.csv" = Except.error "boom" :=
  ⟨((C1_load_csv_amended _ _).1 rfl).1,
   ((C1_load_csv_amended _ _).1 rfl).2,
   ((C1_load_csv_amended _ _).2 "boom" rfl).1,
   ((C1_load_csv_amended _ _).2 "boom" rfl).2 rfl⟩

/-- C2 counterexample: the claim quantifies over *every* provided filter
year, but `if year:` is a Python truthiness test, so the provided year 0
skips the filter entirely: a table with a Year column keeps a row whose
Year value is 5 ≠ 0. -/
theorem C2_counterexample :
    "Year" ∈ (Table.mk ["Year"] [[Value.vInt 5]]).cols ∧
    [Value.vInt 5] ∈ (apply_filters (Table.mk ["Year"] [[Value.vInt 5]]) (some 0) none).rows ∧
    rowGet (Table.mk ["Year"] [[Value.vInt 5]]).cols [Value.vInt 5] "Year" =
      some (Value.vInt 5) ∧
    valueEqInt (Value.vInt 5) 0 = false := by
  decide

/-- C2 (amended): for every Table with a Year column and every provided
*nonzero* filter year Y, every row of `apply_filters(table, Y, query)` has
a Year value numerically equal to Y, and the output rows are a sublist
(hence a subset) of the input rows; a provided year of 0 is falsy in
Python and skips the year filter. -/
theorem C2_apply_filters_year (t : Table) (y : Int) (q : Option String)
    (hy : y ≠ 0) (hc : "Year" ∈ t.cols) :
    (∀ r ∈ (apply_filters t (some y) q).rows,
        ∃ v, rowGet t.cols r "Year" = some v ∧ valueEqInt v y = true) ∧
    List.Sublist (apply_filters t (some y) q).rows t.rows := by
  constructor
  · intro r hr
    have hk := (yearRowKeep_of_mem t y q r hy hc hr).1
    unfold yearRowKeep at hk
    rcases hv : rowGet t.cols r "Year" with _ | v
    · rw [hv] at hk
      simp at hk
    · rw [hv] at hk
      exact ⟨v, rfl, hk⟩
  · exact apply_filters_rows_sublist t (some y) q

theorem C2_apply_filters_year_witness :
    (∀ r ∈ (apply_filters (Table.mk ["Year"] [[Value.vInt 2025], [Value.vInt 5]])
        (some 2025) none).rows,
      ∃ v, rowGet (Table.mk ["Year"] [[Value.vInt 2025], [Value.vInt 5]]).cols r "Year" =
          some v ∧ valueEqInt v 2025 = true) ∧
    List.Sublist (apply_filters (Table.mk ["Year"] [[Value.vInt 2025], [Value.vInt 5]])
        (some 2025) none).rows [[Value.vInt 2025], [Value.vInt 5]] :=
  C2_apply_filters_year (Table.mk ["Year"] [[Value.vInt 2025], [Value.vInt 5]]) 2025 none
    (by decide) (by decide)

/-- C3 counterexample: two failures of the claim as stated.  First,
pandas `str.contains` treats the query as a regular expression, so the
query "." keeps the row "Thunder Lane" even though "." is not a substring
of that name (in any casing).  Second, an empty query is falsy in Python
and skips the filter entirely, so a row with a missing name value is NOT
excluded when the provided query is "". -/
theorem C3_counterexample :
    [Value.vStr "Thunder Lane"] ∈
      (apply_filters (Table.mk ["Horse"] [[Value.vStr "Thunder Lane"]]) none (some ".")).rows ∧
    ¬ (".".data <:+: "Thunder Lane".data) ∧
    ¬ (".".data <:+: (strLower "Thunder Lane").data) ∧
    [Value.vNone] ∈
      (apply_filters (Table.mk ["Horse"] [[Value.vNone]]) none (some "")).rows := by
  decide

/-- C3 (amended): for every Table with a Horse column and every provided
*nonempty* query Q, every output row of `apply_filters` has a string
(hence non-missing) Horse value that Q matches under case-insensitive
regular-expression search; when additionally Q contains no regex
metacharacters, the match is exactly case-insensitive substring
containment, recovering the claim's wording.  Rows with missing Horse
values are excluded whenever the filter is active; an empty query is
falsy in Python and skips the filter. -/
theorem C3_apply_filters_query (t : Table) (y : Option Int) (q : String)
    (hq : q ≠ "") (hc : "Horse" ∈ t.cols) :
    (∀ r ∈ (apply_filters t y (some q)).rows,
        ∃ s, rowGet t.cols r "Horse" = some (Value.vStr s) ∧
          reSearch (strLower q) (strLower s) = true) ∧
    ((∀ c ∈ (strLower q).data, ¬ c ∈ regexMeta) →
      ∀ r ∈ (apply_filters t y (some q)).rows,
        ∃ s, rowGet t.cols r "Horse" = some (Value.vStr s) ∧
          (strLower q).data <:+: (strLower s).data) := by
  have main : ∀ r ∈ (apply_filters t y (some q)).rows,
      ∃ s, rowGet t.cols r "Horse" = some (Value.vStr s) ∧
        reSearch (strLower q) (strLower s) = true := by
    intro r hr
    have hk := horseRowKeep_of_mem t y q r hq hc hr
    unfold horseRowKeep at hk
    rcases hv : rowGet t.cols r "Horse" with _ | v
    · rw [hv] at hk
      simp at hk
    · rw [hv] at hk
      cases v with
      | vInt n => simp at hk
      | vRat x => simp at hk
      | vStr s => exact ⟨s, rfl, hk⟩
      | vNone => simp at hk
  refine ⟨main, fun hmeta r hr => ?_⟩
  obtain ⟨s, hv, hse⟩ := main r hr
  have hp : ∀ c ∈ (strLower q).data, c ≠ '.' := by
    intro c hcc hdot
    exact hmeta c hcc (hdot ▸ (by decide : ('.' : Char) ∈ regexMeta))
  rw [reSearch_lit_iff _ _ hp] at hse
  exact ⟨s, hv, hse⟩

theorem C3_apply_filters_query_witness :
    (∀ r ∈ (apply_filters
        (Table.mk ["Horse"] [[Value.vStr "Thunder Lane"], [Value.vNone]])
        none (some "thunder")).rows,
      ∃ s, rowGet (Table.mk ["Horse"] [[Value.vStr "Thunder Lane"], [Value.vNone]]).cols
          r "Horse" = some (Value.vStr s) ∧
        reSearch (strLower "thunder") (strLower s) = true) ∧
    ((∀ c ∈ (strLower "thunder").data, ¬ c ∈ regexMeta) →
      ∀ r ∈ (apply_filters
          (Table.mk ["Horse"] [[Value.vStr "Thunder Lane"], [Value.vNone]])
          none (some "thunder")).rows,
        ∃ s, rowGet (Table.mk ["Horse"] [[Value.vStr "Thunder Lane"], [Value.vNone]]).cols
            r "Horse" = some (Value.vStr s) ∧
          (strLower "thunder").data <:+: (strLower s).data) :=
  C3_apply_filters_query (Table.mk ["Horse"] [[Value.vStr "Thunder Lane"], [Value.vNone]])
    none "thunder" (by decide) (by decide)

/-- C4 counterexample: `if ACCESS_KEY:` is a Python truthiness test, so a
configured secret that is the empty string is treated as no secret at
all: with secret "" and an exactly-equal provided key "", the gate
returns the checkbox value (here `true`, demo) rather than granted, and
with a differing key "x" it returns the checkbox value (here `false`,
granted) rather than demo. -/
theorem C4_counterexample :
    demo_mode (some "") "" true = true ∧ demo_mode (some "") "x" false = false := by
  decide

/-- C4 (amended): when no secret is configured — or the configured secret
is the empty string, which Python truthiness treats the same way — the
gate yields the caller-chosen checkbox default (widget default on); when
a nonempty secret is configured, the gate yields granted (demo_mode =
false) exactly on string equality of the provided key, and demo mode on
any other key; the gate is a total function and never hard-fails. -/
theorem C4_resolve_mode (key : String) (cb : Bool) :
    demo_mode none key cb = cb ∧
    demo_mode (some "") key cb = cb ∧
    CHECKBOX_DEFAULT = true ∧
    ∀ s : String, s ≠ "" →
      demo_mode (some s) s cb = false ∧ ∀ k2, k2 ≠ s → demo_mode (some s) k2 cb = true := by
  refine ⟨rfl, by simp [demo_mode], rfl, fun s hs => ⟨?_, fun k2 hk2 => ?_⟩⟩
  · simp [demo_mode, hs]
  · simp [demo_mode, hs, hk2]

theorem C4_resolve_mode_witness :
    demo_mode none "k" true = true ∧
    demo_mode (some "") "k" false = false ∧
    demo_mode (some "SECRET") "SECRET" true = false ∧
    demo_mode (some "SECRET") "nope" true = true :=
  ⟨(C4_resolve_mode "k" true).1,
   (C4_resolve_mode "k" false).2.1,
   ((C4_resolve_mode "k" true).2.2.2 "SECRET" (by decide)).1,
   ((C4_resolve_mode "k" true).2.2.2 "SECRET" (by decide)).2 "nope" (by decide)⟩

/-- C5: `ensure_demo_if_empty` returns its input unchanged whenever the
input Table (well-formed per the spec's section-3 Table invariant) has at
least one row, and the operation is idempotent on every Table. -/
theorem C5_ensure_demo_noop_idem (t : Table) (kind : String) :
    (t.WF → t.rows ≠ [] → ensure_demo_if_empty t kind = t) ∧
    ensure_demo_if_empty (ensure_demo_if_empty t kind) kind = ensure_demo_if_empty t kind := by
  constructor
  · intro hwf hrows
    have hemp : t.pdEmpty = false := by
      unfold Table.pdEmpty
      rcases hwf with h | ⟨hcols, _⟩
      · exact absurd h hrows
      · rw [Bool.or_eq_false_iff]
        constructor
        · rcases htr : t.rows with _ | ⟨r, rs⟩
          · exact absurd htr hrows
          · rfl
        · rcases htc : t.cols with _ | ⟨c, cs⟩
          · exact absurd htc hcols
          · rfl
    unfold ensure_demo_if_empty
    rw [hemp]
    rfl
  · exact ensure_demo_if_empty_idem t kind

theorem C5_ensure_demo_noop_idem_witness :
    ensure_demo_if_empty (Table.mk ["Horse"] [[Value.vStr "Dust Devil"]]) "quick" =
        Table.mk ["Horse"] [[Value.vStr "Dust Devil"]] ∧
    ensure_demo_if_empty
        (ensure_demo_if_empty (Table.mk ["Horse"] [[Value.vStr "Dust Devil"]]) "quick") "quick" =
      ensure_demo_if_empty (Table.mk ["Horse"] [[Value.vStr "Dust Devil"]]) "quick" :=
  ⟨(C5_ensure_demo_noop_idem (Table.mk ["Horse"] [[Value.vStr "Dust Devil"]]) "quick").1
      (by decide) (by decide),
   (C5_ensure_demo_noop_idem (Table.mk ["Horse"] [[Value.vStr "Dust Devil"]]) "quick").2⟩

/-- C6: an absent relevant column makes the corresponding filter of
`apply_filters` a no-op, never an error: without a Year column the year
argument is irrelevant and the year filter passes rows through; without a
Horse column the query argument is irrelevant and the query filter passes
rows through. -/
theorem C6_absent_column_noop (t : Table) (y : Option Int) (q : Option String) :
    ("Year" ∉ t.cols →
      apply_filters t y q = apply_filters t none q ∧
        (apply_filters t y none).rows = t.rows) ∧
    ("Horse" ∉ t.cols →
      apply_filters t y q = apply_filters t y none ∧
        (apply_filters t none q).rows = t.rows) := by
  have hyno : ∀ (u : Table) (y' : Option Int), "Year" ∉ u.cols → yearStage u y' = u := by
    intro u y' hno
    cases y' with
    | none => rfl
    | some yy => simp [yearStage, hno]
  have hqno : ∀ (u : Table) (q' : Option String), "Horse" ∉ u.cols → horseStage u q' = u := by
    intro u q' hno
    cases q' with
    | none => rfl
    | some qq => simp [horseStage, hno]
  constructor
  · intro hno
    have hno' : "Year" ∉ t.copy.cols := hno
    constructor
    · unfold apply_filters
      rw [hyno t.copy y hno', hyno t.copy none hno']
    · unfold apply_filters
      rw [hyno t.copy y hno']
      rfl
  · intro hno
    have h1 : "Horse" ∉ (yearStage t.copy y).cols := by
      rw [yearStage_cols, Table.copy_eq]
      exact hno
    constructor
    · unfold apply_filters
      rw [hqno _ q h1]
      rfl
    · unfold apply_filters
      show (horseStage t.copy q).rows = t.rows
      rw [hqno t.copy q hno]
      rfl

theorem C6_absent_column_noop_witness :
    (apply_filters (Table.mk ["X"] [[Value.vInt 1]]) (some 7) (some "a") =
        apply_filters (Table.mk ["X"] [[Value.vInt 1]]) none (some "a") ∧
      (apply_filters (Table.mk ["X"] [[Value.vInt 1]]) (some 7) none).rows =
        (Table.mk ["X"] [[Value.vInt 1]]).rows) ∧
    (apply_filters (Table.mk ["X"] [[Value.vInt 1]]) (some 7) (some "a") =
        apply_filters (Table.mk ["X"] [[Value.vInt 1]]) (some 7) none ∧
      (apply_filters (Table.mk ["X"] [[Value.vInt 1]]) none (some "a")).rows =
        (Table.mk ["X"] [[Value.vInt 1]]).rows) :=
  ⟨(C6_absent_column_noop (Table.mk ["X"] [[Value.vInt 1]]) (some 7) (some "a")).1 (by decide),
   (C6_absent_column_noop (Table.mk ["X"] [[Value.vInt 1]]) (some 7) (some "a")).2 (by decide)⟩

/-- C7: the two filters of `apply_filters` compose conjunctively as
independent row predicates and commute: `apply_filters` (which runs the
year conditional first) equals running the query conditional first, and
the two stages commute on every table. -/
theorem C7_filters_commute (t : Table) (y : Option Int) (q : Option String) :
    apply_filters t y q = yearStage (horseStage t.copy q) y ∧
    horseStage (yearStage t y) q = yearStage (horseStage t q) y :=
  ⟨stages_comm t.copy y q, stages_comm t y q⟩

/-- C8: for a registry view whose kind is "cluster" and whose source file
does not exist, resolving then applying demo substitution (the first two
steps of the tabs loop) produces exactly the 5-row synthetic cluster
table, whose "Cluster" column holds only values in the set {A, B, C}. -/
theorem C8_cluster_view (fs : FS) (v : ViewDescr)
    (hv : v ∈ DATA_VIEWS) (hk : v.key = "cluster") (hmiss : fs.pathExists v.file = false) :
    Demo.resolveView fs v = make_demo_df "cluster" ∧
    (Demo.resolveView fs v).rows.length = 5 ∧
    (Demo.resolveView fs v).col? "Cluster" =
      some [Value.vStr "A", Value.vStr "A", Value.vStr "B", Value.vStr "B", Value.vStr "C"] ∧
    ∀ x ∈ [Value.vStr "A", Value.vStr "A", Value.vStr "B", Value.vStr "B", Value.vStr "C"],
      x ∈ [Value.vStr "A", Value.vStr "B", Value.vStr "C"] := by
  have hload : Demo.load_csv fs v.file = Table.emptyDF := by
    unfold Demo.load_csv
    rw [hmiss]
    simp
  have hkind : Demo.viewKind v = "cluster" := by
    unfold Demo.viewKind
    rw [hk]
    simp
  have h1 : Demo.resolveView fs v = make_demo_df "cluster" := by
    unfold Demo.resolveView
    rw [hload, hkind]
    decide
  refine ⟨h1, ?_, ?_, by decide⟩
  · rw [h1]
    decide
  · rw [h1]
    decide

theorem C8_cluster_view_witness :
    Demo.resolveView ⟨fun _ => false, fun _ => Except.error "missing"⟩
        ⟨"cluster", "Cluster Analysis", "🔄", "data/cluster_insights.csv"⟩ =
      make_demo_df "cluster" ∧
    (Demo.resolveView ⟨fun _ => false, fun _ => Except.error "missing"⟩
        ⟨"cluster", "Cluster Analysis", "🔄", "data/cluster_insights.csv"⟩).rows.length = 5 ∧
    (Demo.resolveView ⟨fun _ => false, fun _ => Except.error "missing"⟩
        ⟨"cluster", "Cluster Analysis", "🔄", "data/cluster_insights.csv"⟩).col? "Cluster" =
      some [Value.vStr "A", Value.vStr "A", Value.vStr "B", Value.vStr "B", Value.vStr "C"] ∧
    ∀ x ∈ [Value.vStr "A", Value.vStr "A", Value.vStr "B", Value.vStr "B", Value.vStr "C"],
      x ∈ [Value.vStr "A", Value.vStr "B", Value.vStr "C"] :=
  C8_cluster_view ⟨fun _ => false, fun _ => Except.error "missing"⟩
    ⟨"cluster", "Cluster Analysis", "🔄", "data/cluster_insights.csv"⟩
    (by decide) rfl rfl

theorem apply_filters_heap_get? (h : Heap) (df : Nat) (y : Option Int) (q : Option String)
    (i : Nat) (hi : i < h.length) :
    (apply_filters_heap h df y q).1.get? i = h.get? i := by
  show (horseStep
      (yearStep (halloc h (Table.copy (hget h df))).1 (halloc h (Table.copy (hget h df))).2 y).1
      (yearStep (halloc h (Table.copy (hget h df))).1 (halloc h (Table.copy (hget h df))).2 y).2
      q).1.get? i = h.get? i
  have l1 : i < (halloc h (Table.copy (hget h df))).1.length := by
    rw [halloc_length]
    omega
  have l2 : i < (yearStep (halloc h (Table.copy (hget h df))).1
      (halloc h (Table.copy (hget h df))).2 y).1.length :=
    Nat.lt_of_lt_of_le l1 (yearStep_length _ _ _)
  rw [horseStep_get? _ _ _ _ l2, yearStep_get? _ _ _ _ l1, get?_halloc_lt _ _ _ hi]

theorem apply_filters_heap_hget (h : Heap) (df : Nat) (y : Option Int) (q : Option String) :
    hget (apply_filters_heap h df y q).1 (apply_filters_heap h df y q).2 =
      apply_filters (hget h df) y q := by
  show hget
      (horseStep
        (yearStep (halloc h (Table.copy (hget h df))).1 (halloc h (Table.copy (hget h df))).2 y).1
        (yearStep (halloc h (Table.copy (hget h df))).1 (halloc h (Table.copy (hget h df))).2 y).2
        q).1
      (horseStep
        (yearStep (halloc h (Table.copy (hget h df))).1 (halloc h (Table.copy (hget h df))).2 y).1
        (yearStep (halloc h (Table.copy (hget h df))).1 (halloc h (Table.copy (hget h df))).2 y).2
        q).2 = apply_filters (hget h df) y q
  rw [horseStep_hget, yearStep_hget, hget_halloc_new]
  rfl

/-- C9: `apply_filters` never mutates the caller's DataFrame.  In the heap
model — where `df.copy()` and each boolean-mask selection allocate fresh
objects, exactly as the pandas calls in the source do — running
`apply_filters` leaves the object the caller's reference points to
untouched, and the returned reference holds precisely the pure
`apply_filters` result of the input table. -/
theorem C9_no_input_mutation (h : Heap) (df : Nat) (y : Option Int) (q : Option String)
    (hdf : df < h.length) :
    (apply_filters_heap h df y q).1.get? df = h.get? df ∧
    hget (apply_filters_heap h df y q).1 (apply_filters_heap h df y q).2 =
      apply_filters (hget h df) y q :=
  ⟨apply_filters_heap_get? h df y q df hdf, apply_filters_heap_hget h df y q⟩

theorem C9_no_input_mutation_witness :
    (apply_filters_heap [Table.mk ["Year"] [[Value.vInt 2024], [Value.vInt 2025]]] 0
        (some 2025) (some "")).1.get? 0 =
      [Table.mk ["Year"] [[Value.vInt 2024], [Value.vInt 2025]]].get? 0 ∧
    hget (apply_filters_heap [Table.mk ["Year"] [[Value.vInt 2024], [Value.vInt 2025]]] 0
        (some 2025) (some "")).1
      (apply_filters_heap [Table.mk ["Year"] [[Value.vInt 2024], [Value.vInt 2025]]] 0
        (some 2025) (some "")).2 =
      apply_filters (hget [Table.mk ["Year"] [[Value.vInt 2024], [Value.vInt 2025]]] 0)
        (some 2025) (some "") :=
  C9_no_input_mutation [Table.mk ["Year"] [[Value.vInt 2024], [Value.vInt 2025]]] 0
    (some 2025) (some "") (by decide)

/-- C10: for every view kind, the synthetic demo table has exactly 5
rows, every Year value equal to 2025, and five distinct, non-missing
string Horse names; consequently its rows fully survive the sidebar's
default filters (year 2025, empty search text). -/
theorem C10_demo_table_invariants (kind : String) :
    (make_demo_df kind).rows.length = 5 ∧
    (make_demo_df kind).col? "Year" = some (List.replicate 5 (Value.vInt 2025)) ∧
    (make_demo_df kind).col? "Horse" =
      some [Value.vStr "Thunder Lane", Value.vStr "Blue Ribbon", Value.vStr "Crimson Tide",
            Value.vStr "Midnight Ace", Value.vStr "Golden Harbor"] ∧
    List.Nodup [Value.vStr "Thunder Lane", Value.vStr "Blue Ribbon", Value.vStr "Crimson Tide",
                Value.vStr "Midnight Ace", Value.vStr "Golden Harbor"] ∧
    (∀ x ∈ [Value.vStr "Thunder Lane", Value.vStr "Blue Ribbon", Value.vStr "Crimson Tide",
            Value.vStr "Midnight Ace", Value.vStr "Golden Harbor"], x ≠ Value.vNone) ∧
    (apply_filters (make_demo_df kind) (some 2025) (some "")).rows = (make_demo_df kind).rows := by
  by_cases hp : kind = "pca"
  · subst hp
    decide
  · by_cases hc : kind = "cluster"
    · subst hc
      decide
    · have hbase : make_demo_df kind = Table.mk
          ["Horse", "Year", "PP", "Trainer", "Jockey", "CompositeIndex",
           "SpeedFigure", "FinalFraction", "Note"]
          [[Value.vStr "Thunder Lane", Value.vInt 2025, Value.vInt 3, Value.vStr "Redacted",
            Value.vStr "Redacted", Value.vRat (mkRat 923 10), Value.vInt 100,
            Value.vRat (mkRat 376 10), Value.vStr (kind ++ " (demo)")],
           [Value.vStr "Blue Ribbon", Value.vInt 2025, Value.vInt 7, Value.vStr "Redacted",
            Value.vStr "Redacted", Value.vRat (mkRat 901 10), Value.vInt 101,
            Value.vRat (mkRat 379 10), Value.vStr (kind ++ " (demo)")],
           [Value.vStr "Crimson Tide", Value.vInt 2025, Value.vInt 11, Value.vStr "Redacted",
            Value.vStr "Redacted", Value.vRat (mkRat 887 10), Value.vInt 98,
            Value.vRat (mkRat 381 10), Value.vStr (kind ++ " (demo)")],
           [Value.vStr "Midnight Ace", Value.vInt 2025, Value.vInt 5, Value.vStr "Redacted",
            Value.vStr "Redacted", Value.vRat (mkRat 879 10), Value.vInt 99,
            Value.vRat (mkRat 378 10), Value.vStr (kind ++ " (demo)")],
           [Value.vStr "Golden Harbor", Value.vInt 2025, Value.vInt 9, Value.vStr "Redacted",
            Value.vStr "Redacted", Value.vRat (mkRat 864 10), Value.vInt 97,
            Value.vRat (mkRat 382 10), Value.vStr (kind ++ " (demo)")]] := by
        simp [make_demo_df, hp, hc]
      rw [hbase]
      exact ⟨rfl, rfl, rfl, by decide, by decide, rfl⟩
